import Mathlib

/-!
A shallow embedding of the Mojo-Analytics-Pipeline repository
(src/process_data.py, src/ingest_data.py, src/dashboard.py and
src/Constants.py), used to check the specification's claims against
the code.

Spreadsheet cells are modelled by `Cell`.  Numeric cells are carried at
integer precision: the claims under scrutiny concern presence or absence
of values, row filtering and classification, never floating-point
arithmetic.  A pandas DataFrame is a list of typed rows; a missing value
(NaN/NaT) is the constructor `Cell.missing`.  Operations that pandas
aborts with an exception (which process_data.py catches and turns into
`None`) are modelled as `Option`-valued functions returning `none`.
-/

/-- A calendar date, the day-granularity view of a pandas Timestamp. -/
structure Date where
  year : Nat
  month : Nat
  day : Nat
deriving DecidableEq

/-- Chronological comparison of two dates. -/
def dateLe (a b : Date) : Bool :=
  if a.year ≠ b.year then decide (a.year < b.year)
  else if a.month ≠ b.month then decide (a.month < b.month)
  else decide (a.day ≤ b.day)

/-- ISO-style rendering of a date, used when a date cell is stringified. -/
def dateToString (d : Date) : String :=
  toString d.year ++ "-" ++ toString d.month ++ "-" ++ toString d.day

/-- A spreadsheet / DataFrame cell: a string, a number (integer precision),
a parsed date, or a missing value (pandas NaN / NaT). -/
inductive Cell
  | cstr (s : String)
  | cnum (n : Int)
  | cdate (d : Date)
  | missing
deriving DecidableEq

/-- True exactly on the missing value (pandas `isna`). -/
def isMissing : Cell → Bool
  | Cell.missing => true
  | _ => false

/-- A raw spreadsheet as read from disk: a list of rows of cells. -/
abbrev RawSheet : Type := List (List Cell)

/-- Cell of a row at a column position; absent positions read as NaN,
as pandas does for short rows. -/
def cellAt (r : List Cell) (i : Nat) : Cell :=
  r.getD i Cell.missing

/-- Characters of a string strictly before its first dot.  This is the
semantics of Python `s.split(".")[0]` for the one-character separator
used by the phone-normalization lines of process_data.py. -/
def takeBeforeDot : List Char → List Char
  | [] => []
  | c :: cs => if c = '.' then [] else c :: takeBeforeDot cs

/-- Python `str(s).split(".")[0]` at the string level. -/
def splitDotHead (s : String) : String :=
  String.mk (takeBeforeDot s.toList)

/-- Pandas `astype(str)` on a cell.  A float-typed numeric cell prints with
a trailing `.0` (the decimal artifact the pipeline strips), a missing
value prints as the string `nan`. -/
def astypeStr : Cell → String
  | Cell.cstr s => s
  | Cell.cnum n => toString n ++ ".0"
  | Cell.cdate d => dateToString d
  | Cell.missing => "nan"

/-- The phone normalization of process_data.py lines 36, 68 and 135:
`col.astype(str).str.split(".").str[0]`. -/
def phoneNorm (c : Cell) : Cell :=
  Cell.cstr (splitDotHead (astypeStr c))

/-- Read a run of decimal digits into an accumulator, failing at the first
non-digit character. -/
def parseDigits (acc : Nat) : List Char → Option Nat
  | [] => some acc
  | c :: cs => if c.isDigit then parseDigits (acc * 10 + (c.toNat - 48)) cs else none

/-- Parse a nonempty all-digit character list as a natural number. -/
def parseNatChars : List Char → Option Nat
  | [] => none
  | cs => parseDigits 0 cs

/-- Parse a decimal integer string with an optional leading minus sign. -/
def parseIntString (s : String) : Option Int :=
  match s.toList with
  | '-' :: rest => (parseNatChars rest).map (fun n => -(n : Int))
  | cs => (parseNatChars cs).map (fun n => (n : Int))

/-- Pandas `pd.to_numeric(x, errors="coerce")` on one cell: numbers pass
through, numeric strings parse, anything else becomes missing. -/
def toNumericCell : Cell → Cell
  | Cell.cnum n => Cell.cnum n
  | Cell.cstr s =>
      match parseIntString s with
      | some n => Cell.cnum n
      | none => Cell.missing
  | Cell.cdate _ => Cell.missing
  | Cell.missing => Cell.missing

/-- Split a character list at every dash, the splitting `YYYY-MM-DD`
undergoes during date parsing. -/
def splitOnDashAux (acc : List Char) : List Char → List (List Char)
  | [] => [acc.reverse]
  | c :: cs => if c = '-' then acc.reverse :: splitOnDashAux [] cs
               else splitOnDashAux (c :: acc) cs

/-- Parse an ISO `YYYY-MM-DD` string into a date. -/
def parseDateString (s : String) : Option Date :=
  match splitOnDashAux [] s.toList with
  | [y, m, d] =>
      match parseNatChars y, parseNatChars m, parseNatChars d with
      | some yn, some mn, some dn =>
          if 1 ≤ mn ∧ mn ≤ 12 ∧ 1 ≤ dn ∧ dn ≤ 31 then some (Date.mk yn mn dn)
          else none
      | _, _, _ => none
  | _ => none

/-- Pandas `pd.to_datetime` (default `errors="raise"`) on one cell:
`none` models the raised exception, `some Cell.missing` is NaT for a
missing input, otherwise a date cell results.  A numeric input is read
by pandas as a nanosecond offset from the epoch, which at day
granularity is the epoch date for every realistic magnitude. -/
def toDatetimeCell : Cell → Option Cell
  | Cell.missing => some Cell.missing
  | Cell.cdate d => some (Cell.cdate d)
  | Cell.cstr s =>
      match parseDateString s with
      | some d => some (Cell.cdate d)
      | none => none
  | Cell.cnum _ => some (Cell.cdate (Date.mk 1970 1 1))

/-- Apply a fallible per-element function to a whole list, failing when any
element fails: the column-wise behaviour of `pd.to_datetime` whose
exception aborts the enclosing cleaning function. -/
def mapOption (f : α → Option β) : List α → Option (List β)
  | [] => some []
  | a :: l =>
      match f a, mapOption f l with
      | some b, some l' => some (b :: l')
      | _, _ => none

/-- A row of the clean clients table (process_data.py line 34). -/
structure ClientRow where
  name : Cell
  id : Cell
  phone : Cell
  creation_date : Cell
  status : Cell
deriving DecidableEq

/-- Positional column selection of `read_excel(..., usecols=[1,2,3,4,5])`
for the clients sheet. -/
def selectClientCols (r : List Cell) : ClientRow :=
  ClientRow.mk (cellAt r 1) (cellAt r 2) (cellAt r 3) (cellAt r 4) (cellAt r 5)

/-- The clients cleaning computation (process_data.py lines 33-36):
`skiprows=5` plus the default header row consume the first six sheet
rows, columns 1-5 are retained, `creation_date` is datetime-coerced
(an unparseable value raises, caught by the caller as `none`), and the
phone column is stringified and stripped of its decimal suffix. -/
def computeClients (raw : RawSheet) : Option (List ClientRow) :=
  let rows := (raw.drop 6).map selectClientCols
  match mapOption
      (fun r => (toDatetimeCell r.creation_date).map
        (fun d => ClientRow.mk r.name r.id r.phone d r.status)) rows with
  | none => none
  | some rows' =>
      some (rows'.map
        (fun r => ClientRow.mk r.name r.id (phoneNorm r.phone) r.creation_date r.status))

/-- A row of the clean pets table (process_data.py line 66). -/
structure PetRow where
  pet_name : Cell
  code : Cell
  creation_date : Cell
  status : Cell
  type : Cell
  client_phone : Cell
deriving DecidableEq

/-- Positional column selection of `read_excel(..., header=None,
usecols=[1,2,3,4,5,7])` for the pets sheet. -/
def selectPetCols (r : List Cell) : PetRow :=
  PetRow.mk (cellAt r 1) (cellAt r 2) (cellAt r 3) (cellAt r 4) (cellAt r 5) (cellAt r 7)

/-- The pets cleaning computation (process_data.py lines 65-68):
`skiprows=4, header=None` drops four sheet rows, columns
1,2,3,4,5,7 are retained, `creation_date` is datetime-coerced and
`client_phone` is stringified and stripped of its decimal suffix. -/
def computePets (raw : RawSheet) : Option (List PetRow) :=
  let rows := (raw.drop 4).map selectPetCols
  match mapOption
      (fun r => (toDatetimeCell r.creation_date).map
        (fun d => PetRow.mk r.pet_name r.code d r.status r.type r.client_phone)) rows with
  | none => none
  | some rows' =>
      some (rows'.map
        (fun r => PetRow.mk r.pet_name r.code r.creation_date r.status r.type
          (phoneNorm r.client_phone)))

/-- A row of the clean services table (process_data.py line 98). -/
structure ServiceRow where
  category : Cell
  service : Cell
  quantity : Cell
  cost : Cell
  sale_price : Cell
  creation_date : Cell
deriving DecidableEq

/-- Positional column selection of `read_excel(..., header=None,
usecols=[1,2,3,4,5,7])` for the services sheet. -/
def selectServiceCols (r : List Cell) : ServiceRow :=
  ServiceRow.mk (cellAt r 1) (cellAt r 2) (cellAt r 3) (cellAt r 4) (cellAt r 5) (cellAt r 7)

/-- The data rows of the services sheet after `skiprows=5, header=None`
and column selection. -/
def servicesDataRows (raw : RawSheet) : List ServiceRow :=
  (raw.drop 5).map selectServiceCols

/-- The services cleaning computation (process_data.py lines 97-103):
datetime-coerce `creation_date` (line 99), numeric-coerce `quantity`,
`cost` and `sale_price` with failures becoming missing (lines 100-102),
then `dropna(subset=["sale_price"])` (line 103). -/
def computeServices (raw : RawSheet) : Option (List ServiceRow) :=
  match mapOption
      (fun r => (toDatetimeCell r.creation_date).map
        (fun d => ServiceRow.mk r.category r.service r.quantity r.cost r.sale_price d))
      (servicesDataRows raw) with
  | none => none
  | some rows1 =>
      let rows2 := rows1.map (fun r =>
        ServiceRow.mk r.category r.service (toNumericCell r.quantity) r.cost r.sale_price
          r.creation_date)
      let rows3 := rows2.map (fun r =>
        ServiceRow.mk r.category r.service r.quantity (toNumericCell r.cost) r.sale_price
          r.creation_date)
      let rows4 := rows3.map (fun r =>
        ServiceRow.mk r.category r.service r.quantity r.cost (toNumericCell r.sale_price)
          r.creation_date)
      some (rows4.filter (fun r => !(isMissing r.sale_price)))

/-- A row of the clean revenue table (process_data.py line 133). -/
structure RevenueRow where
  creation_date : Cell
  category : Cell
  client : Cell
  client_phone : Cell
  pet_name : Cell
  invoice_code : Cell
  amount : Cell
  discount : Cell
  paid : Cell
  debit : Cell
deriving DecidableEq

/-- Positional column selection of `read_excel(..., header=None,
usecols=[1,2,3,4,5,6,7,8,10,11])` for the revenue sheet. -/
def selectRevenueCols (r : List Cell) : RevenueRow :=
  RevenueRow.mk (cellAt r 1) (cellAt r 2) (cellAt r 3) (cellAt r 4) (cellAt r 5)
    (cellAt r 6) (cellAt r 7) (cellAt r 8) (cellAt r 10) (cellAt r 11)

/-- True when no field of a revenue row is missing: the row survives
`dropna()` (process_data.py line 137). -/
def revComplete (r : RevenueRow) : Bool :=
  !(isMissing r.creation_date) && !(isMissing r.category) && !(isMissing r.client) &&
  !(isMissing r.client_phone) && !(isMissing r.pet_name) && !(isMissing r.invoice_code) &&
  !(isMissing r.amount) && !(isMissing r.discount) && !(isMissing r.paid) &&
  !(isMissing r.debit)

/-- The revenue cleaning computation (process_data.py lines 132-137):
`skiprows=5, header=None`, positional column selection, `iloc[:-2]`
dropping the two trailing vendor summary rows, phone normalization,
datetime coercion of `creation_date` and finally `dropna()` removing
every row with any missing field. -/
def computeRevenue (raw : RawSheet) : Option (List RevenueRow) :=
  let rows0 := (raw.drop 5).map selectRevenueCols
  let rows1 := rows0.dropLast.dropLast
  let rows2 := rows1.map (fun r =>
    RevenueRow.mk r.creation_date r.category r.client (phoneNorm r.client_phone)
      r.pet_name r.invoice_code r.amount r.discount r.paid r.debit)
  match mapOption
      (fun r => (toDatetimeCell r.creation_date).map
        (fun d => RevenueRow.mk d r.category r.client r.client_phone r.pet_name
          r.invoice_code r.amount r.discount r.paid r.debit)) rows2 with
  | none => none
  | some rows3 => some (rows3.filter revComplete)

/-- The content of the raw data directory: file name to sheet, `none`
meaning the file is absent (reading it raises FileNotFoundError). -/
def Store : Type := String → Option RawSheet

/-- Wrapper of process_data.py lines 31-49: reading a missing clients file
raises FileNotFoundError, caught and turned into `None`; any parsing
exception is likewise caught and turned into `None`. -/
def clean_clients_data (store : Store) : Option (List ClientRow) :=
  match store "clients.xlsx" with
  | none => none
  | some sheet => computeClients sheet

/-- Wrapper of process_data.py lines 63-81 for the pets file. -/
def clean_pets_data (store : Store) : Option (List PetRow) :=
  match store "pets.xlsx" with
  | none => none
  | some sheet => computePets sheet

/-- Wrapper of process_data.py lines 95-116 for the services file. -/
def clean_services_data (store : Store) : Option (List ServiceRow) :=
  match store "services.xlsx" with
  | none => none
  | some sheet => computeServices sheet

/-- Wrapper of process_data.py lines 130-150 for the revenue file. -/
def clean_revenue_data (store : Store) : Option (List RevenueRow) :=
  match store "revenue.xlsx" with
  | none => none
  | some sheet => computeRevenue sheet

/-- Render one cell as a CSV field (pandas `to_csv`). -/
def cellCsv : Cell → String
  | Cell.cstr s => s
  | Cell.cnum n => toString n
  | Cell.cdate d => dateToString d
  | Cell.missing => ""

/-- Join CSV fields of one line with commas. -/
def joinComma : List String → String
  | [] => ""
  | [s] => s
  | s :: rest => s ++ "," ++ joinComma rest

/-- Concatenate CSV lines, each terminated by a newline. -/
def csvConcat : List String → String
  | [] => ""
  | l :: ls => l ++ "\n" ++ csvConcat ls

/-- CSV bytes written for a clean clients table (`to_csv(..., index=False)`
at process_data.py line 40). -/
def clientsCsv (t : List ClientRow) : String :=
  csvConcat ("name,id,phone,creation_date,status" ::
    t.map (fun r => joinComma
      [cellCsv r.name, cellCsv r.id, cellCsv r.phone, cellCsv r.creation_date,
       cellCsv r.status]))

/-- CSV bytes written for a clean pets table (process_data.py line 72). -/
def petsCsv (t : List PetRow) : String :=
  csvConcat ("pet_name,code,creation_date,status,type,client_phone" ::
    t.map (fun r => joinComma
      [cellCsv r.pet_name, cellCsv r.code, cellCsv r.creation_date, cellCsv r.status,
       cellCsv r.type, cellCsv r.client_phone]))

/-- CSV bytes written for a clean services table (process_data.py line 107). -/
def servicesCsv (t : List ServiceRow) : String :=
  csvConcat ("category,service,quantity,cost,sale_price,creation_date" ::
    t.map (fun r => joinComma
      [cellCsv r.category, cellCsv r.service, cellCsv r.quantity, cellCsv r.cost,
       cellCsv r.sale_price, cellCsv r.creation_date]))

/-- CSV bytes written for a clean revenue table (process_data.py line 141). -/
def revenueCsv (t : List RevenueRow) : String :=
  csvConcat ("creation_date,category,client,client_phone,pet_name,invoice_code,amount,discount,paid,debit" ::
    t.map (fun r => joinComma
      [cellCsv r.creation_date, cellCsv r.category, cellCsv r.client,
       cellCsv r.client_phone, cellCsv r.pet_name, cellCsv r.invoice_code,
       cellCsv r.amount, cellCsv r.discount, cellCsv r.paid, cellCsv r.debit]))

/-- Overwrite one path of a path-to-bytes store. -/
def storeWrite (f : String → Option String) (k v : String) : String → Option String :=
  fun p => if p = k then some v else f p

/-- Set one path of a path-to-bytes store to an arbitrary content,
possibly absent. -/
def storeSet (f : String → Option String) (k : String) (v : Option String) :
    String → Option String :=
  fun p => if p = k then v else f p

/-- Outcome of the persistence step (`os.makedirs` plus `to_csv`):
success, or a raised exception.  `to_csv` truncates the target file
before writing, so a failed write leaves unspecified bytes at the
target path: `left` is whatever the path holds afterwards, `none` when
nothing was created and `some partial` for a truncated or partially
written file. -/
inductive WriteOutcome
  | ok
  | fail (left : Option String)

/-- The persistent state a cleaning run touches: the raw data directory it
reads and the date-partitioned clean store it writes. -/
structure PipeState where
  raw : String → Option RawSheet
  clean : String → Option String

/-- One run of `clean_clients_data` against persistent storage
(process_data.py lines 31-49).  A missing raw file or a parsing
exception yields `None` and leaves the clean store untouched; on
success the clean table is written to `<cleanDir>/clients.csv` before
being returned.  A persistence failure (`os.makedirs` or `to_csv`
raising) is caught by the same generic handler, so the function
returns `None`, with the target path left holding whatever the
interrupted write left behind. -/
def run_clean_clients (cleanDir : String) (w : WriteOutcome) (s : PipeState) :
    PipeState × Option (List ClientRow) :=
  match s.raw "clients.xlsx" with
  | none => (s, none)
  | some sheet =>
      match computeClients sheet with
      | none => (s, none)
      | some tbl =>
          match w with
          | WriteOutcome.ok =>
              (PipeState.mk s.raw
                (storeWrite s.clean (cleanDir ++ "/clients.csv") (clientsCsv tbl)),
               some tbl)
          | WriteOutcome.fail left =>
              (PipeState.mk s.raw (storeSet s.clean (cleanDir ++ "/clients.csv") left),
               none)

/-- One run of `clean_pets_data` against persistent storage
(process_data.py lines 63-81), with the same error policy as
`run_clean_clients`. -/
def run_clean_pets (cleanDir : String) (w : WriteOutcome) (s : PipeState) :
    PipeState × Option (List PetRow) :=
  match s.raw "pets.xlsx" with
  | none => (s, none)
  | some sheet =>
      match computePets sheet with
      | none => (s, none)
      | some tbl =>
          match w with
          | WriteOutcome.ok =>
              (PipeState.mk s.raw
                (storeWrite s.clean (cleanDir ++ "/pets.csv") (petsCsv tbl)),
               some tbl)
          | WriteOutcome.fail left =>
              (PipeState.mk s.raw (storeSet s.clean (cleanDir ++ "/pets.csv") left),
               none)

/-- One run of `clean_services_data` against persistent storage
(process_data.py lines 95-116), with the same error policy as
`run_clean_clients`. -/
def run_clean_services (cleanDir : String) (w : WriteOutcome) (s : PipeState) :
    PipeState × Option (List ServiceRow) :=
  match s.raw "services.xlsx" with
  | none => (s, none)
  | some sheet =>
      match computeServices sheet with
      | none => (s, none)
      | some tbl =>
          match w with
          | WriteOutcome.ok =>
              (PipeState.mk s.raw
                (storeWrite s.clean (cleanDir ++ "/services.csv") (servicesCsv tbl)),
               some tbl)
          | WriteOutcome.fail left =>
              (PipeState.mk s.raw (storeSet s.clean (cleanDir ++ "/services.csv") left),
               none)

/-- One run of `clean_revenue_data` against persistent storage
(process_data.py lines 130-150), with the same error policy as
`run_clean_clients`. -/
def run_clean_revenue (cleanDir : String) (w : WriteOutcome) (s : PipeState) :
    PipeState × Option (List RevenueRow) :=
  match s.raw "revenue.xlsx" with
  | none => (s, none)
  | some sheet =>
      match computeRevenue sheet with
      | none => (s, none)
      | some tbl =>
          match w with
          | WriteOutcome.ok =>
              (PipeState.mk s.raw
                (storeWrite s.clean (cleanDir ++ "/revenue.csv") (revenueCsv tbl)),
               some tbl)
          | WriteOutcome.fail left =>
              (PipeState.mk s.raw (storeSet s.clean (cleanDir ++ "/revenue.csv") left),
               none)

/-- A generic DataFrame as seen by the dashboard: named columns over rows
of cells. -/
structure DFrame where
  cols : List String
  rows : List (List Cell)
deriving DecidableEq

/-- Pandas comparison `cell >= fromDate`: false for NaT and non-date cells. -/
def cellGeDate (fromDate : Date) : Cell → Bool
  | Cell.cdate d => dateLe fromDate d
  | _ => false

/-- Pandas comparison `cell <= toDate`: false for NaT and non-date cells. -/
def cellLeDate (toDate : Date) : Cell → Bool
  | Cell.cdate d => dateLe d toDate
  | _ => false

/-- Pandas `df.loc[mask]`: keep the rows whose mask entry is true. -/
def locMask : List (List Cell) → List Bool → List (List Cell)
  | [], _ => []
  | _ :: _, [] => []
  | r :: rs, b :: bs => if b then r :: locMask rs bs else locMask rs bs

/-- The dashboard's date filter (dashboard.py lines 160-163): an empty
table or one lacking the date column is returned unchanged, otherwise
the rows whose date cell lies in the inclusive range are kept. -/
def filter_df (fromDate toDate : Date) (dateCol : String) (df : DFrame) : DFrame :=
  if df.rows.isEmpty || !(df.cols.contains dateCol) then df
  else
    let i := df.cols.indexOf dateCol
    let mask := df.rows.map
      (fun r => cellGeDate fromDate (cellAt r i) && cellLeDate toDate (cellAt r i))
    DFrame.mk df.cols (locMask df.rows mask)

/-- Static endpoint configuration: URL plus default query parameters. -/
structure EndpointConfig where
  endpoint : String
  params : List (String × String)
deriving DecidableEq

/-- Constants.py: the vendor API base URL. -/
def BASE_URL : String := "https://vicapipro.veticareapp.com/v1/api"

/-- Constants.py lines 5-12: endpoint keys to configuration; the signin
entry has no default query parameters (`config.get("params", {})`
yields the empty dict). -/
def ENDPOINTS : String → Option EndpointConfig
  | "signin" => some (EndpointConfig.mk (BASE_URL ++ "/signin") [])
  | "clients" => some (EndpointConfig.mk (BASE_URL ++ "/exportreports/clientsreport")
      [("CreatedAtFrom", "2025-12-27"), ("CreatedAtTo", "2025-12-27"),
       ("IsActive", "true")])
  | "services" => some (EndpointConfig.mk (BASE_URL ++ "/exportreports/servicesReport")
      [("CreatedAtFrom", "2025-12-27"), ("CreatedAtTo", "2025-12-27"),
       ("IsActive", "true"), ("userId", ""), ("ServiceId", ""),
       ("ServiceCategoryId", "")])
  | "pets" => some (EndpointConfig.mk (BASE_URL ++ "/exportreports/petReport")
      [("CreatedAtFrom", "2025-12-27"), ("CreatedAtTo", "2025-12-27"),
       ("IsActive", "true"), ("SpecieId", "")])
  | "revenue" => some (EndpointConfig.mk (BASE_URL ++ "/exportreports/revenue")
      [("CreatedAtFrom", "2025-12-27"), ("CreatedAtTo", "2025-12-27"), ("Type", "")])
  | "expenses" => some (EndpointConfig.mk (BASE_URL ++ "/exportreports/expenses")
      [("CreatedAtFrom", "2025-12-27"), ("CreatedAtTo", "2025-12-27")])
  | _ => none

/-- Constants.py lines 15-18: the static request headers. -/
def HEADERS : List (String × String) :=
  [("Content-Type", "application/json"),
   ("Accept", "application/json, application/vnd.openxmlformats-officedocument.spreadsheetml.sheet")]

/-- First-match lookup in an association list, the dict access semantics. -/
def lookupP : List (String × String) → String → Option String
  | [], _ => none
  | kv :: rest, key => if kv.1 = key then some kv.2 else lookupP rest key

/-- Python `merged = dict(base); merged.update(upd)`: existing keys keep
their position but take the updating value, new keys of `upd` are
appended in order. -/
def dictUpdate (base upd : List (String × String)) : List (String × String) :=
  base.map (fun kv =>
    match lookupP upd kv.1 with
    | some w => (kv.1, w)
    | none => kv)
  ++ upd.filter (fun kv => (lookupP base kv.1).isNone)

/-- ingest_data.py lines 69-71: copy HEADERS, attach the bearer token and
remove Content-Type for the GET request. -/
def authHeaders (token : String) : List (String × String) :=
  (dictUpdate HEADERS [("Authorization", "Bearer " ++ token)]).filter
    (fun kv => kv.1 != "Content-Type")

/-- An HTTP response: status code, declared Content-Type header and body
bytes. -/
structure Response where
  status : Nat
  contentType : String
  content : List Nat
deriving DecidableEq

/-- The GET request `fetch_data` issues. -/
structure Request where
  url : String
  params : List (String × String)
  headers : List (String × String)
deriving DecidableEq

/-- Outcome of issuing a request: a response, or a transport error
(the exception branch of ingest_data.py lines 95-97). -/
inductive HttpOutcome
  | success (resp : Response)
  | transportError
deriving DecidableEq

/-- The classified payload `fetch_data` returns on success: a binary
spreadsheet file or a structured JSON payload.  JSON deserialization of
the body is not modelled; both constructors carry the raw body bytes. -/
inductive FetchResult
  | fileResult (content : List Nat)
  | jsonResult (content : List Nat)
deriving DecidableEq

/-- Does the first list occur as a leading segment of the second? -/
def startsWithList : List Char → List Char → Bool
  | [], _ => true
  | _ :: _, [] => false
  | p :: ps, c :: cs => (p == c) && startsWithList ps cs

/-- Does the pattern occur contiguously anywhere in the list? -/
def hasSubstrList (pat : List Char) : List Char → Bool
  | [] => pat.isEmpty
  | c :: cs => startsWithList pat (c :: cs) || hasSubstrList pat cs

/-- Python `pat in s` on strings: contiguous substring test. -/
def strContains (s pat : String) : Bool :=
  hasSubstrList pat.toList s.toList

/-- The payload classification of ingest_data.py lines 80-89: a body
beginning with the two-byte ZIP signature `PK` (bytes 80, 75) is a
binary file regardless of Content-Type; otherwise a declared type
containing "json" calls `response.json()`, which deserializes the body
or raises on a malformed one - the raise is caught by the enclosing
handler of lines 95-97 and becomes `None`; anything else falls back to
a binary file.  The deserializer is external library code, so it enters
the model as the oracle `jsonOk`, true exactly on bodies that
deserialize. -/
def classify_response (jsonOk : List Nat → Bool) (resp : Response) :
    Option FetchResult :=
  if resp.content.take 2 = [80, 75] then some (FetchResult.fileResult resp.content)
  else if strContains resp.contentType "json" then
    (if jsonOk resp.content then some (FetchResult.jsonResult resp.content) else none)
  else some (FetchResult.fileResult resp.content)

/-- ingest_data.py lines 77-93: only a 200 status is classified, any other
status is logged and yields `None`. -/
def handle_response (jsonOk : List Nat → Bool) (resp : Response) : Option FetchResult :=
  if resp.status = 200 then classify_response jsonOk resp else none

/-- The request `fetch_data` builds for a configured endpoint: the static
URL, the default parameters updated by the caller-supplied ones, and
the authenticated headers. -/
def mkFetchRequest (token : String) (cfg : EndpointConfig)
    (dyn : List (String × String)) : Request :=
  Request.mk cfg.endpoint (dictUpdate cfg.params dyn) (authHeaders token)

/-- ingest_data.py lines 48-97.  The first component is the request that
was issued (`none` when validation failed before any request); the
second is the fetch result, `none` standing for the Python `None`
returned on unknown keys, transport errors, non-200 statuses and
json-deserialization failures. -/
def fetch_data (http : Request → HttpOutcome) (jsonOk : List Nat → Bool)
    (token : String) (endpointKey : String)
    (dynamicParams : List (String × String)) : Option Request × Option FetchResult :=
  match ENDPOINTS endpointKey with
  | none => (none, none)
  | some cfg =>
      let req := mkFetchRequest token cfg dynamicParams
      match http req with
      | HttpOutcome.transportError => (some req, none)
      | HttpOutcome.success resp => (some req, handle_response jsonOk resp)

/-- Is the cell a nonempty all-digit string? -/
def cellIsDigitString : Cell → Bool
  | Cell.cstr s => !s.isEmpty && s.toList.all Char.isDigit
  | _ => false

/-- Is the cell a string containing no dot (no decimal suffix left)? -/
def cellNoDot : Cell → Bool
  | Cell.cstr s => !(s.toList.contains '.')
  | _ => false

/-- A clients sheet whose single data row has the phone value the spec
uses as its normalization example. -/
def exClientsPhoneSheet : RawSheet :=
  [[], [], [], [], [], [],
   [Cell.missing, Cell.cstr "Amina", Cell.cstr "C1", Cell.cstr "201234567.0",
    Cell.cdate (Date.mk 2025 12 1), Cell.cstr "Active"]]

/-- A clients sheet whose single data row has a missing phone value; the
pipeline stringifies it to the literal text nan. -/
def exClientsNanSheet : RawSheet :=
  [[], [], [], [], [], [],
   [Cell.missing, Cell.cstr "Badr", Cell.cstr "C2", Cell.missing,
    Cell.cdate (Date.mk 2025 12 2), Cell.cstr "Active"]]

/-- A pets sheet whose single data row carries the spec's example phone
value in the client_phone column (position 7). -/
def exPetsPhoneSheet : RawSheet :=
  [[], [], [], [],
   [Cell.missing, Cell.cstr "Rex", Cell.cstr "P1", Cell.cdate (Date.mk 2025 12 3),
    Cell.cstr "Active", Cell.cstr "Dog", Cell.missing, Cell.cstr "201234567.0"]]

/-- A services sheet with one row whose quantity fails numeric coercion
but whose sale price is valid, and one row whose sale price fails. -/
def exServicesSheet : RawSheet :=
  [[], [], [], [], [],
   [Cell.missing, Cell.cstr "Grooming", Cell.cstr "Bath", Cell.cstr "abc",
    Cell.cstr "5", Cell.cstr "10", Cell.missing, Cell.cdate (Date.mk 2025 12 4)],
   [Cell.missing, Cell.cstr "Vax", Cell.cstr "Shot", Cell.cstr "1",
    Cell.cstr "3", Cell.cstr "xx", Cell.missing, Cell.cdate (Date.mk 2025 12 5)]]

/-- The clean services table produced from `exServicesSheet`. -/
def exServicesOut : List ServiceRow :=
  [ServiceRow.mk (Cell.cstr "Grooming") (Cell.cstr "Bath") Cell.missing
    (Cell.cnum 5) (Cell.cnum 10) (Cell.cdate (Date.mk 2025 12 4))]

/-- A revenue sheet with two data rows (the second missing its amount) and
two trailing vendor summary rows whose date column would not even
parse as a date. -/
def exRevenueSheet : RawSheet :=
  [[], [], [], [], [],
   [Cell.missing, Cell.cdate (Date.mk 2025 12 6), Cell.cstr "Surgery", Cell.cstr "Ali",
    Cell.cstr "201234567.0", Cell.cstr "Rex", Cell.cstr "INV1", Cell.cnum 100,
    Cell.cnum 0, Cell.missing, Cell.cnum 80, Cell.cnum 20],
   [Cell.missing, Cell.cdate (Date.mk 2025 12 7), Cell.cstr "Vaccine", Cell.cstr "Badr",
    Cell.cstr "201000000.0", Cell.cstr "Max", Cell.cstr "INV2", Cell.missing,
    Cell.cnum 0, Cell.missing, Cell.cnum 50, Cell.cnum 0],
   [Cell.missing, Cell.cstr "Total", Cell.missing, Cell.missing, Cell.missing,
    Cell.missing, Cell.missing, Cell.cnum 180, Cell.missing, Cell.missing,
    Cell.cnum 130, Cell.missing],
   [Cell.missing, Cell.cstr "Grand Total", Cell.missing, Cell.missing, Cell.missing,
    Cell.missing, Cell.missing, Cell.missing, Cell.missing, Cell.missing,
    Cell.missing, Cell.missing]]

/-- The clean revenue table produced from `exRevenueSheet`. -/
def exRevenueOut : List RevenueRow :=
  [RevenueRow.mk (Cell.cdate (Date.mk 2025 12 6)) (Cell.cstr "Surgery")
    (Cell.cstr "Ali") (Cell.cstr "201234567") (Cell.cstr "Rex") (Cell.cstr "INV1")
    (Cell.cnum 100) (Cell.cnum 0) (Cell.cnum 80) (Cell.cnum 20)]

/-- A one-column clean table with dates spread across December 2025, for
exercising the dashboard date filter. -/
def exDashboardDf : DFrame :=
  DFrame.mk ["creation_date"]
    [[Cell.cdate (Date.mk 2025 12 5)], [Cell.cdate (Date.mk 2025 12 15)],
     [Cell.cdate (Date.mk 2025 12 25)]]

/-- A pipeline state whose raw store holds only the example clients sheet
and whose clean store is empty. -/
def exC8State : PipeState :=
  PipeState.mk (fun n => if n = "clients.xlsx" then some exClientsPhoneSheet else none)
    (fun _ => none)

theorem mapOption_length {α β : Type} {f : α → Option β} :
    ∀ {l : List α} {l' : List β}, mapOption f l = some l' → l'.length = l.length := by
  intro l
  induction l with
  | nil =>
      intro l' h
      simp [mapOption] at h
      subst h
      rfl
  | cons a t ih =>
      intro l' h
      simp only [mapOption] at h
      cases hfa : f a with
      | none => rw [hfa] at h; simp at h
      | some b =>
          rw [hfa] at h
          cases hmt : mapOption f t with
          | none => rw [hmt] at h; simp at h
          | some t' =>
              rw [hmt] at h
              simp at h
              subst h
              simp [ih hmt]

theorem mapOption_mem {α β : Type} {f : α → Option β} :
    ∀ {l : List α} {l' : List β}, mapOption f l = some l' →
      ∀ {a : α}, a ∈ l → ∃ b, f a = some b ∧ b ∈ l' := by
  intro l
  induction l with
  | nil =>
      intro l' _ a ha
      simp at ha
  | cons x t ih =>
      intro l' h a ha
      simp only [mapOption] at h
      cases hfx : f x with
      | none => rw [hfx] at h; simp at h
      | some b =>
          rw [hfx] at h
          cases hmt : mapOption f t with
          | none => rw [hmt] at h; simp at h
          | some t' =>
              rw [hmt] at h
              simp at h
              subst h
              rcases List.mem_cons.mp ha with hax | hat
              · subst hax
                exact ⟨b, hfx, List.mem_cons_self b t'⟩
              · rcases ih hmt hat with ⟨b', hb', hb'mem⟩
                exact ⟨b', hb', List.mem_cons_of_mem b hb'mem⟩

theorem mapOption_mem_rev {α β : Type} {f : α → Option β} :
    ∀ {l : List α} {l' : List β}, mapOption f l = some l' →
      ∀ {b : β}, b ∈ l' → ∃ a, a ∈ l ∧ f a = some b := by
  intro l
  induction l with
  | nil =>
      intro l' h b hb
      simp [mapOption] at h
      subst h
      simp at hb
  | cons x t ih =>
      intro l' h b hb
      simp only [mapOption] at h
      cases hfx : f x with
      | none => rw [hfx] at h; simp at h
      | some b0 =>
          rw [hfx] at h
          cases hmt : mapOption f t with
          | none => rw [hmt] at h; simp at h
          | some t' =>
              rw [hmt] at h
              simp at h
              subst h
              rcases List.mem_cons.mp hb with hbx | hbt
              · subst hbx
                exact ⟨x, List.mem_cons_self x t, hfx⟩
              · rcases ih hmt hbt with ⟨a, ha, hfa⟩
                exact ⟨a, List.mem_cons_of_mem x ha, hfa⟩

theorem takeBeforeDot_not_mem : ∀ cs : List Char, '.' ∉ takeBeforeDot cs := by
  intro cs
  induction cs with
  | nil => simp [takeBeforeDot]
  | cons c t ih =>
      by_cases h : c = '.'
      · simp [takeBeforeDot, h]
      · simp only [takeBeforeDot, if_neg h]
        intro hmem
        rcases List.mem_cons.mp hmem with heq | htail
        · exact h heq.symm
        · exact ih htail

theorem phoneNorm_noDot (c : Cell) : cellNoDot (phoneNorm c) = true := by
  have h := takeBeforeDot_not_mem (astypeStr c).toList
  simp [phoneNorm, cellNoDot, splitDotHead, String.toList]
  simpa using h

theorem toNumericCell_shape (c : Cell) :
    toNumericCell c = Cell.missing ∨ ∃ n, toNumericCell c = Cell.cnum n := by
  cases c with
  | cnum n => exact Or.inr ⟨n, rfl⟩
  | cstr s =>
      simp only [toNumericCell]
      cases parseIntString s with
      | none => exact Or.inl rfl
      | some n => exact Or.inr ⟨n, rfl⟩
  | cdate d => exact Or.inl rfl
  | missing => exact Or.inl rfl

theorem locMask_map (p : List Cell → Bool) :
    ∀ l : List (List Cell), locMask l (l.map p) = l.filter p := by
  intro l
  induction l with
  | nil => rfl
  | cons r rs ih =>
      by_cases h : p r
      · simp [locMask, List.filter_cons, h, ih]
      · simp [locMask, List.filter_cons, h, ih]

theorem cellRange_iff (f t : Date) (c : Cell) :
    (cellGeDate f c && cellLeDate t c) = true ↔
      ∃ d, c = Cell.cdate d ∧ dateLe f d = true ∧ dateLe d t = true := by
  cases c with
  | cdate d => simp [cellGeDate, cellLeDate]
  | cstr s => simp [cellGeDate, cellLeDate]
  | cnum n => simp [cellGeDate, cellLeDate]
  | missing => simp [cellGeDate, cellLeDate]

theorem lookupP_append (A B : List (String × String)) (k : String) :
    lookupP (A ++ B) k =
      (match lookupP A k with
       | some v => some v
       | none => lookupP B k) := by
  induction A with
  | nil => simp [lookupP]
  | cons kv rest ih =>
      by_cases h : kv.1 = k
      · simp [lookupP, h]
      · simp [lookupP, h, ih]

theorem lookupP_map_override (upd : List (String × String)) (k : String) :
    ∀ base : List (String × String),
      lookupP (base.map (fun kv =>
        match lookupP upd kv.1 with
        | some w => (kv.1, w)
        | none => kv)) k =
      (match lookupP base k with
       | some v =>
           some (match lookupP upd k with
                 | some w => w
                 | none => v)
       | none => none) := by
  intro base
  induction base with
  | nil => simp [lookupP]
  | cons kv rest ih =>
      by_cases h : kv.1 = k
      · subst h
        cases hupd : lookupP upd kv.1 with
        | none => simp [lookupP, hupd]
        | some w => simp [lookupP, hupd]
      · cases hupd : lookupP upd kv.1 with
        | none => simp [lookupP, hupd, h, ih]
        | some w => simp [lookupP, hupd, h, ih]

theorem lookupP_filter_new (base : List (String × String)) (k : String) :
    ∀ upd : List (String × String),
      lookupP (upd.filter (fun kv => (lookupP base kv.1).isNone)) k =
        (if (lookupP base k).isNone then lookupP upd k else none) := by
  intro upd
  induction upd with
  | nil => simp [lookupP]
  | cons kv rest ih =>
      by_cases h : kv.1 = k
      · subst h
        cases hb : lookupP base kv.1 with
        | none => simp [List.filter_cons, lookupP, hb]
        | some v => simp [List.filter_cons, lookupP, hb, ih, hb]
      · cases hb : lookupP base kv.1 with
        | none => simp [List.filter_cons, lookupP, hb, h, ih]
        | some v => simp [List.filter_cons, lookupP, hb, h, ih]

theorem lookupP_dictUpdate (base upd : List (String × String)) (k : String) :
    lookupP (dictUpdate base upd) k =
      (match lookupP upd k with
       | some v => some v
       | none => lookupP base k) := by
  unfold dictUpdate
  rw [lookupP_append, lookupP_map_override]
  cases hb : lookupP base k with
  | none =>
      simp only [lookupP_filter_new, hb, Option.isNone_none, if_true]
      cases lookupP upd k with
      | none => rfl
      | some v => rfl
  | some v =>
      cases hu : lookupP upd k with
      | none => simp
      | some w => simp

theorem storeWrite_idem (f : String → Option String) (k v : String) :
    storeWrite (storeWrite f k v) k v = storeWrite f k v := by
  funext p
  by_cases h : p = k
  · simp [storeWrite, h]
  · simp [storeWrite, h]

/-- C1: the revenue normalizer unconditionally drops the last two rows of
the sheet before typing, and every row with a missing value in any column
after typing is excluded from the clean output; hence a sheet whose
post-skip portion has N data rows plus 2 trailing summary rows yields at
most N clean rows. -/
theorem claim_C1_revenue_footer_and_complete (raw : RawSheet) (out : List RevenueRow)
    (h : computeRevenue raw = some out) :
    out.length ≤ (raw.drop 5).length - 2 ∧ ∀ r ∈ out, revComplete r = true := by
  simp only [computeRevenue] at h
  split at h
  · simp at h
  · rename_i rows3 heq
    injection h with h
    subst h
    refine ⟨?_, ?_⟩
    · have hlen := mapOption_length heq
      have hfil : (rows3.filter revComplete).length ≤ rows3.length :=
        List.length_filter_le _ _
      simp only [List.length_map, List.length_dropLast] at hlen
      omega
    · intro r hr
      exact (List.mem_filter.mp hr).2

/-- Witness for C1: a concrete revenue sheet with two data rows and two
trailing summary rows cleans successfully and obeys the row bound. -/
theorem claim_C1_witness :
    computeRevenue exRevenueSheet = some exRevenueOut ∧
    exRevenueOut.length ≤ (exRevenueSheet.drop 5).length - 2 := by
  have h : computeRevenue exRevenueSheet = some exRevenueOut := by decide
  exact ⟨h, (claim_C1_revenue_footer_and_complete exRevenueSheet exRevenueOut h).1⟩

/-- C3: for each report type, a missing raw file makes the cleaning
operation return the no-data sentinel without raising, and each report's
cleaning result depends only on that report's own raw file. -/
theorem claim_C3_missing_file_isolation (s1 s2 : Store) :
    (s1 "clients.xlsx" = none → clean_clients_data s1 = none) ∧
    (s1 "pets.xlsx" = none → clean_pets_data s1 = none) ∧
    (s1 "services.xlsx" = none → clean_services_data s1 = none) ∧
    (s1 "revenue.xlsx" = none → clean_revenue_data s1 = none) ∧
    (s1 "clients.xlsx" = s2 "clients.xlsx" →
      clean_clients_data s1 = clean_clients_data s2) ∧
    (s1 "pets.xlsx" = s2 "pets.xlsx" → clean_pets_data s1 = clean_pets_data s2) ∧
    (s1 "services.xlsx" = s2 "services.xlsx" →
      clean_services_data s1 = clean_services_data s2) ∧
    (s1 "revenue.xlsx" = s2 "revenue.xlsx" →
      clean_revenue_data s1 = clean_revenue_data s2) := by
  refine ⟨?_, ?_, ?_, ?_, ?_, ?_, ?_, ?_⟩ <;> intro h <;>
    simp [clean_clients_data, clean_pets_data, clean_services_data,
      clean_revenue_data, h]

/-- Witness for C3: an empty raw directory yields no clients data, and the
pets result is unchanged when unrelated files of the store change. -/
theorem claim_C3_witness :
    clean_clients_data (fun _ => none) = none ∧
    clean_pets_data (fun n => if n = "pets.xlsx" then some exPetsPhoneSheet else none) =
      clean_pets_data
        (fun n => if n = "pets.xlsx" then some exPetsPhoneSheet else some [[]]) := by
  refine ⟨(claim_C3_missing_file_isolation (fun _ => none) (fun _ => none)).1 rfl, ?_⟩
  exact (claim_C3_missing_file_isolation
    (fun n => if n = "pets.xlsx" then some exPetsPhoneSheet else none)
    (fun n => if n = "pets.xlsx" then some exPetsPhoneSheet else some [[]])).2.2.2.2.2.1
    (by decide)

/-- C7: running any of the four cleaning operations a second time, on the
state the first run left and the same partition directory, returns the
same clean table and leaves the persisted clean store byte-identical. -/
theorem claim_C7_idempotent_runs (dir : String) (s : PipeState) :
    run_clean_clients dir WriteOutcome.ok (run_clean_clients dir WriteOutcome.ok s).1 =
      run_clean_clients dir WriteOutcome.ok s ∧
    run_clean_pets dir WriteOutcome.ok (run_clean_pets dir WriteOutcome.ok s).1 =
      run_clean_pets dir WriteOutcome.ok s ∧
    run_clean_services dir WriteOutcome.ok (run_clean_services dir WriteOutcome.ok s).1 =
      run_clean_services dir WriteOutcome.ok s ∧
    run_clean_revenue dir WriteOutcome.ok (run_clean_revenue dir WriteOutcome.ok s).1 =
      run_clean_revenue dir WriteOutcome.ok s := by
  refine ⟨?_, ?_, ?_, ?_⟩
  · cases hr : s.raw "clients.xlsx" with
    | none => simp [run_clean_clients, hr]
    | some sheet =>
        cases hc : computeClients sheet with
        | none => simp [run_clean_clients, hr, hc]
        | some tbl => simp [run_clean_clients, hr, hc, storeWrite_idem]
  · cases hr : s.raw "pets.xlsx" with
    | none => simp [run_clean_pets, hr]
    | some sheet =>
        cases hc : computePets sheet with
        | none => simp [run_clean_pets, hr, hc]
        | some tbl => simp [run_clean_pets, hr, hc, storeWrite_idem]
  · cases hr : s.raw "services.xlsx" with
    | none => simp [run_clean_services, hr]
    | some sheet =>
        cases hc : computeServices sheet with
        | none => simp [run_clean_services, hr, hc]
        | some tbl => simp [run_clean_services, hr, hc, storeWrite_idem]
  · cases hr : s.raw "revenue.xlsx" with
    | none => simp [run_clean_revenue, hr]
    | some sheet =>
        cases hc : computeRevenue sheet with
        | none => simp [run_clean_revenue, hr, hc]
        | some tbl => simp [run_clean_revenue, hr, hc, storeWrite_idem]

/-- C10: an endpoint key that is not configured makes fetch_data return
the absence sentinel without issuing any HTTP request, for every token
and caller-supplied parameters. -/
theorem claim_C10_unknown_endpoint (http : Request → HttpOutcome)
    (jsonOk : List Nat → Bool) (token : String)
    (dyn : List (String × String)) (key : String) (h : ENDPOINTS key = none) :
    fetch_data http jsonOk token key dyn = (none, none) := by
  simp [fetch_data, h]

/-- Witness for C10 at the unconfigured key inventory. -/
theorem claim_C10_witness :
    fetch_data (fun _ => HttpOutcome.transportError) (fun _ => true) "token0"
      "inventory" [] = (none, none) :=
  claim_C10_unknown_endpoint (fun _ => HttpOutcome.transportError) (fun _ => true)
    "token0" [] "inventory" (by decide)

theorem isMissing_eq_false_of_ne (c : Cell) (h : c ≠ Cell.missing) :
    isMissing c = false := by
  cases c with
  | cstr s => rfl
  | cnum n => rfl
  | cdate d => rfl
  | missing => exact absurd rfl h

/-- C2: in the services cleaner, every clean row carries a numeric sale
price (rows failing sale-price coercion are excluded), and every sheet
row with a coercible sale price is retained, its failing quantity or
cost fields turned into missing values. -/
theorem claim_C2_services_sale_price_gate (raw : RawSheet) (out : List ServiceRow)
    (h : computeServices raw = some out) :
    (∀ r ∈ out, ∃ n, r.sale_price = Cell.cnum n) ∧
    (∀ rr ∈ servicesDataRows raw,
      toNumericCell rr.sale_price ≠ Cell.missing →
      ∃ d, toDatetimeCell rr.creation_date = some d ∧
        ServiceRow.mk rr.category rr.service (toNumericCell rr.quantity)
          (toNumericCell rr.cost) (toNumericCell rr.sale_price) d ∈ out) := by
  simp only [computeServices] at h
  split at h
  · simp at h
  · rename_i rows1 heq
    injection h with h
    subst h
    constructor
    · intro r hr
      have hfil := List.mem_filter.mp hr
      rcases List.mem_map.mp hfil.1 with ⟨a, _, rfl⟩
      have hp := hfil.2
      rcases toNumericCell_shape a.sale_price with hm | ⟨n, hn⟩
      · simp [hm, isMissing] at hp
      · exact ⟨n, hn⟩
    · intro rr hrr hnum
      rcases mapOption_mem heq hrr with ⟨b, hb, hbmem⟩
      rcases Option.map_eq_some'.mp hb with ⟨d, hd, rfl⟩
      refine ⟨d, hd, ?_⟩
      apply List.mem_filter.mpr
      constructor
      · exact List.mem_map.mpr
          ⟨ServiceRow.mk rr.category rr.service (toNumericCell rr.quantity)
            (toNumericCell rr.cost) rr.sale_price d,
           List.mem_map.mpr
             ⟨ServiceRow.mk rr.category rr.service (toNumericCell rr.quantity)
               rr.cost rr.sale_price d,
              List.mem_map.mpr
                ⟨ServiceRow.mk rr.category rr.service rr.quantity rr.cost
                  rr.sale_price d, hbmem, rfl⟩,
              rfl⟩,
           rfl⟩
      · simp [isMissing_eq_false_of_ne _ hnum]

/-- Witness for C2: in the concrete services sheet, the row with the
non-numeric quantity but valid sale price is retained with the quantity
as a missing value. -/
theorem claim_C2_witness :
    computeServices exServicesSheet = some exServicesOut ∧
    ServiceRow.mk (Cell.cstr "Grooming") (Cell.cstr "Bath")
      (toNumericCell (Cell.cstr "abc")) (toNumericCell (Cell.cstr "5"))
      (toNumericCell (Cell.cstr "10")) (Cell.cdate (Date.mk 2025 12 4)) ∈
      exServicesOut := by
  have h : computeServices exServicesSheet = some exServicesOut := by decide
  have h2 := (claim_C2_services_sale_price_gate exServicesSheet exServicesOut h).2
    (ServiceRow.mk (Cell.cstr "Grooming") (Cell.cstr "Bath") (Cell.cstr "abc")
      (Cell.cstr "5") (Cell.cstr "10") (Cell.cdate (Date.mk 2025 12 4)))
    (by decide) (by decide)
  rcases h2 with ⟨d, hd, hmem⟩
  have hdq : d = Cell.cdate (Date.mk 2025 12 4) := by
    simp [toDatetimeCell] at hd
    exact hd.symm
  exact ⟨h, by rw [← hdq]; exact hmem⟩

/-- Counterexample to C4 as stated: a 200 response with a json
Content-Type and a non-PK body that does not deserialize (here the
start of an HTML error page, with the oracle false on it modelling
`response.json()` raising) yields the no-data sentinel, not a
structured payload. -/
theorem claim_C4_counterexample :
    handle_response (fun _ => false) (Response.mk 200 "application/json" [60, 104]) =
      none := by decide

/-- C4 (amended): every 200-status fetch response whose body starts with
the two-byte ZIP signature is classified as a binary spreadsheet
payload regardless of the declared Content-Type; otherwise a declared
type containing json makes it a structured payload when the body
deserializes and the no-data sentinel when deserialization raises; and
anything else falls back to a binary payload. -/
theorem claim_C4_amended_classification (jsonOk : List Nat → Bool) (resp : Response)
    (h : resp.status = 200) :
    (resp.content.take 2 = [80, 75] →
      handle_response jsonOk resp = some (FetchResult.fileResult resp.content)) ∧
    (resp.content.take 2 ≠ [80, 75] → strContains resp.contentType "json" = true →
      jsonOk resp.content = true →
      handle_response jsonOk resp = some (FetchResult.jsonResult resp.content)) ∧
    (resp.content.take 2 ≠ [80, 75] → strContains resp.contentType "json" = true →
      jsonOk resp.content = false →
      handle_response jsonOk resp = none) ∧
    (resp.content.take 2 ≠ [80, 75] → strContains resp.contentType "json" = false →
      handle_response jsonOk resp = some (FetchResult.fileResult resp.content)) := by
  refine ⟨?_, ?_, ?_, ?_⟩
  · intro hpk
    simp [handle_response, classify_response, h, hpk]
  · intro hpk hj hok
    simp [handle_response, classify_response, h, hpk, hj, hok]
  · intro hpk hj hok
    simp [handle_response, classify_response, h, hpk, hj, hok]
  · intro hpk hj
    simp [handle_response, classify_response, h, hpk, hj]

/-- Witness for the amended C4: a body starting with PK is classified as
a binary file even under a JSON Content-Type and a deserializable body. -/
theorem claim_C4_witness :
    handle_response (fun _ => true) (Response.mk 200 "application/json" [80, 75, 3]) =
      some (FetchResult.fileResult [80, 75, 3]) :=
  (claim_C4_amended_classification (fun _ => true)
    (Response.mk 200 "application/json" [80, 75, 3]) rfl).1 (by decide)

/-- C9: for every configured endpoint and caller parameter dictionary,
the issued request carries the per-endpoint defaults updated by the
caller parameters, the caller value winning on every shared key. -/
theorem claim_C9_param_merge (http : Request → HttpOutcome)
    (jsonOk : List Nat → Bool) (token key : String)
    (cfg : EndpointConfig) (dyn : List (String × String)) (k : String)
    (h : ENDPOINTS key = some cfg) :
    (fetch_data http jsonOk token key dyn).1 =
      some (Request.mk cfg.endpoint (dictUpdate cfg.params dyn) (authHeaders token)) ∧
    lookupP (dictUpdate cfg.params dyn) k =
      (match lookupP dyn k with
       | some v => some v
       | none => lookupP cfg.params k) := by
  constructor
  · simp only [fetch_data, h, mkFetchRequest]
    cases http (Request.mk cfg.endpoint (dictUpdate cfg.params dyn) (authHeaders token)) with
    | transportError => rfl
    | success resp => rfl
  · exact lookupP_dictUpdate cfg.params dyn k

/-- Witness for C9: overriding CreatedAtFrom for the services endpoint
makes the caller value win over the stored default. -/
theorem claim_C9_witness :
    lookupP (dictUpdate
      [("CreatedAtFrom", "2025-12-27"), ("CreatedAtTo", "2025-12-27"),
       ("IsActive", "true"), ("userId", ""), ("ServiceId", ""),
       ("ServiceCategoryId", "")]
      [("CreatedAtFrom", "2025-12-01")]) "CreatedAtFrom" = some "2025-12-01" := by
  have h := (claim_C9_param_merge (fun _ => HttpOutcome.transportError)
    (fun _ => true) "tok" "services"
    (EndpointConfig.mk (BASE_URL ++ "/exportreports/servicesReport")
      [("CreatedAtFrom", "2025-12-27"), ("CreatedAtTo", "2025-12-27"),
       ("IsActive", "true"), ("userId", ""), ("ServiceId", ""),
       ("ServiceCategoryId", "")])
    [("CreatedAtFrom", "2025-12-01")] "CreatedAtFrom" (by rfl)).2
  simpa using h

/-- Counterexample to C5 as stated: a clients sheet whose phone value is
missing is stringified to the literal text nan, so the clean table
contains a phone field that is not a digit string. -/
theorem claim_C5_counterexample :
    computeClients exClientsNanSheet =
      some [ClientRow.mk (Cell.cstr "Badr") (Cell.cstr "C2") (Cell.cstr "nan")
        (Cell.cdate (Date.mk 2025 12 2)) (Cell.cstr "Active")] ∧
    cellIsDigitString (Cell.cstr "nan") = false :=
  ⟨by decide, by decide⟩

/-- C5 (amended): phone fields of the clean Client and Pet tables never
contain a dot (the decimal suffix is stripped at the first dot), and the
spec's example input 201234567.0 cleans to 201234567 in both tables. -/
theorem claim_C5_amended_phone_no_decimal_suffix :
    (∀ raw out, computeClients raw = some out →
      ∀ r ∈ out, cellNoDot r.phone = true) ∧
    (∀ raw out, computePets raw = some out →
      ∀ r ∈ out, cellNoDot r.client_phone = true) ∧
    computeClients exClientsPhoneSheet =
      some [ClientRow.mk (Cell.cstr "Amina") (Cell.cstr "C1") (Cell.cstr "201234567")
        (Cell.cdate (Date.mk 2025 12 1)) (Cell.cstr "Active")] ∧
    computePets exPetsPhoneSheet =
      some [PetRow.mk (Cell.cstr "Rex") (Cell.cstr "P1") (Cell.cdate (Date.mk 2025 12 3))
        (Cell.cstr "Active") (Cell.cstr "Dog") (Cell.cstr "201234567")] := by
  refine ⟨?_, ?_, by decide, by decide⟩
  · intro raw out h r hr
    simp only [computeClients] at h
    split at h
    · simp at h
    · rename_i rows' heq
      injection h with h
      subst h
      rcases List.mem_map.mp hr with ⟨a, _, rfl⟩
      exact phoneNorm_noDot a.phone
  · intro raw out h r hr
    simp only [computePets] at h
    split at h
    · simp at h
    · rename_i rows' heq
      injection h with h
      subst h
      rcases List.mem_map.mp hr with ⟨a, _, rfl⟩
      exact phoneNorm_noDot a.client_phone

/-- Witness for the amended C5: the clean phone produced from the spec's
example input carries no dot. -/
theorem claim_C5_witness :
    cellNoDot (Cell.cstr "201234567") = true := by
  have h := (claim_C5_amended_phone_no_decimal_suffix.1 exClientsPhoneSheet
    [ClientRow.mk (Cell.cstr "Amina") (Cell.cstr "C1") (Cell.cstr "201234567")
      (Cell.cdate (Date.mk 2025 12 1)) (Cell.cstr "Active")] (by decide))
    (ClientRow.mk (Cell.cstr "Amina") (Cell.cstr "C1") (Cell.cstr "201234567")
      (Cell.cdate (Date.mk 2025 12 1)) (Cell.cstr "Active")) (by decide)
  exact h

/-- C6: the dashboard's date filter returns empty tables and tables
lacking the date column unchanged, and otherwise keeps exactly the rows
whose date cell lies in the inclusive range from the lower to the upper
bound. -/
theorem claim_C6_filter_inclusive (f t : Date) (c : String) (df : DFrame) :
    ((df.rows = [] ∨ df.cols.contains c = false) → filter_df f t c df = df) ∧
    (df.cols.contains c = true →
      ∀ r, r ∈ (filter_df f t c df).rows ↔
        r ∈ df.rows ∧ ∃ d, cellAt r (df.cols.indexOf c) = Cell.cdate d ∧
          dateLe f d = true ∧ dateLe d t = true) := by
  constructor
  · intro h
    have hcond : (df.rows.isEmpty || !(df.cols.contains c)) = true := by
      rcases h with h | h
      · rw [h]; rfl
      · rw [h, Bool.not_false, Bool.or_true]
    simp only [filter_df, hcond]
    rfl
  · intro hc r
    by_cases hrows : df.rows = []
    · simp [filter_df, hrows]
    · have hne : df.rows.isEmpty = false := by
        cases hdf : df.rows with
        | nil => exact absurd hdf hrows
        | cons a l => rfl
      have hcond : (df.rows.isEmpty || !(df.cols.contains c)) = false := by
        rw [hne, hc]; rfl
      simp only [filter_df, hcond, Bool.false_eq_true, if_false]
      rw [locMask_map]
      exact Iff.trans List.mem_filter
        (and_congr_right fun _ => cellRange_iff f t (cellAt r (df.cols.indexOf c)))

/-- Witness for C6: the mid-December row lies in the filter range and is
kept by the filter. -/
theorem claim_C6_witness :
    [Cell.cdate (Date.mk 2025 12 15)] ∈
      (filter_df (Date.mk 2025 12 10) (Date.mk 2025 12 20) "creation_date"
        exDashboardDf).rows :=
  ((claim_C6_filter_inclusive (Date.mk 2025 12 10) (Date.mk 2025 12 20)
    "creation_date" exDashboardDf).2 (by decide)
    [Cell.cdate (Date.mk 2025 12 15)]).mpr
    ⟨by decide, Date.mk 2025 12 15, by decide, by decide, by decide⟩

/-- Counterexample to C8 as stated: on the example clients sheet the
parse succeeds and, when persistence succeeds, the clean table is
returned; but under a persistence failure the operation returns the
no-data sentinel, not the cleaned table. -/
theorem claim_C8_counterexample :
    computeClients exClientsPhoneSheet ≠ none ∧
    (run_clean_clients "d" (WriteOutcome.fail none) exC8State).2 = none ∧
    (run_clean_clients "d" WriteOutcome.ok exC8State).2 =
      computeClients exClientsPhoneSheet :=
  ⟨by decide, by decide, by decide⟩

/-- C8 (amended): on a successful parse with successful persistence, each
cleaning operation writes the clean table to the date-partitioned clean
store before returning it; a persistence failure is caught rather than
propagated, but then the operation returns the no-data sentinel instead
of the cleaned table. -/
theorem claim_C8_amended_persist_then_return (dir : String) (s s' : PipeState) :
    (∀ t, run_clean_clients dir WriteOutcome.ok s = (s', some t) →
      s'.clean (dir ++ "/clients.csv") = some (clientsCsv t)) ∧
    (∀ t, run_clean_pets dir WriteOutcome.ok s = (s', some t) →
      s'.clean (dir ++ "/pets.csv") = some (petsCsv t)) ∧
    (∀ t, run_clean_services dir WriteOutcome.ok s = (s', some t) →
      s'.clean (dir ++ "/services.csv") = some (servicesCsv t)) ∧
    (∀ t, run_clean_revenue dir WriteOutcome.ok s = (s', some t) →
      s'.clean (dir ++ "/revenue.csv") = some (revenueCsv t)) ∧
    (∀ sheet left, s.raw "clients.xlsx" = some sheet → computeClients sheet ≠ none →
      (run_clean_clients dir (WriteOutcome.fail left) s).2 = none) ∧
    (∀ sheet left, s.raw "pets.xlsx" = some sheet → computePets sheet ≠ none →
      (run_clean_pets dir (WriteOutcome.fail left) s).2 = none) ∧
    (∀ sheet left, s.raw "services.xlsx" = some sheet → computeServices sheet ≠ none →
      (run_clean_services dir (WriteOutcome.fail left) s).2 = none) ∧
    (∀ sheet left, s.raw "revenue.xlsx" = some sheet → computeRevenue sheet ≠ none →
      (run_clean_revenue dir (WriteOutcome.fail left) s).2 = none) := by
  refine ⟨?_, ?_, ?_, ?_, ?_, ?_, ?_, ?_⟩
  · intro t hrun
    cases hr : s.raw "clients.xlsx" with
    | none => simp [run_clean_clients, hr] at hrun
    | some sheet =>
        cases hcm : computeClients sheet with
        | none => simp [run_clean_clients, hr, hcm] at hrun
        | some tbl =>
            have hcomp : run_clean_clients dir WriteOutcome.ok s =
                (PipeState.mk s.raw
                  (storeWrite s.clean (dir ++ "/clients.csv") (clientsCsv tbl)),
                 some tbl) := by
              simp [run_clean_clients, hr, hcm]
            rw [hcomp] at hrun
            injection hrun with hs ht
            injection ht with ht
            subst ht
            rw [← hs]
            simp [storeWrite]
  · intro t hrun
    cases hr : s.raw "pets.xlsx" with
    | none => simp [run_clean_pets, hr] at hrun
    | some sheet =>
        cases hcm : computePets sheet with
        | none => simp [run_clean_pets, hr, hcm] at hrun
        | some tbl =>
            have hcomp : run_clean_pets dir WriteOutcome.ok s =
                (PipeState.mk s.raw
                  (storeWrite s.clean (dir ++ "/pets.csv") (petsCsv tbl)),
                 some tbl) := by
              simp [run_clean_pets, hr, hcm]
            rw [hcomp] at hrun
            injection hrun with hs ht
            injection ht with ht
            subst ht
            rw [← hs]
            simp [storeWrite]
  · intro t hrun
    cases hr : s.raw "services.xlsx" with
    | none => simp [run_clean_services, hr] at hrun
    | some sheet =>
        cases hcm : computeServices sheet with
        | none => simp [run_clean_services, hr, hcm] at hrun
        | some tbl =>
            have hcomp : run_clean_services dir WriteOutcome.ok s =
                (PipeState.mk s.raw
                  (storeWrite s.clean (dir ++ "/services.csv") (servicesCsv tbl)),
                 some tbl) := by
              simp [run_clean_services, hr, hcm]
            rw [hcomp] at hrun
            injection hrun with hs ht
            injection ht with ht
            subst ht
            rw [← hs]
            simp [storeWrite]
  · intro t hrun
    cases hr : s.raw "revenue.xlsx" with
    | none => simp [run_clean_revenue, hr] at hrun
    | some sheet =>
        cases hcm : computeRevenue sheet with
        | none => simp [run_clean_revenue, hr, hcm] at hrun
        | some tbl =>
            have hcomp : run_clean_revenue dir WriteOutcome.ok s =
                (PipeState.mk s.raw
                  (storeWrite s.clean (dir ++ "/revenue.csv") (revenueCsv tbl)),
                 some tbl) := by
              simp [run_clean_revenue, hr, hcm]
            rw [hcomp] at hrun
            injection hrun with hs ht
            injection ht with ht
            subst ht
            rw [← hs]
            simp [storeWrite]
  · intro sheet left hr hne
    cases hcm : computeClients sheet with
    | none => exact absurd hcm hne
    | some tbl => simp [run_clean_clients, hr, hcm]
  · intro sheet left hr hne
    cases hcm : computePets sheet with
    | none => exact absurd hcm hne
    | some tbl => simp [run_clean_pets, hr, hcm]
  · intro sheet left hr hne
    cases hcm : computeServices sheet with
    | none => exact absurd hcm hne
    | some tbl => simp [run_clean_services, hr, hcm]
  · intro sheet left hr hne
    cases hcm : computeRevenue sheet with
    | none => exact absurd hcm hne
    | some tbl => simp [run_clean_revenue, hr, hcm]

/-- Witness for the amended C8: on the example state, the clean store of
the successful run holds exactly the CSV bytes of the returned table. -/
theorem claim_C8_witness :
    (run_clean_clients "d" WriteOutcome.ok exC8State).1.clean ("d" ++ "/clients.csv") =
      some (clientsCsv [ClientRow.mk (Cell.cstr "Amina") (Cell.cstr "C1")
        (Cell.cstr "201234567") (Cell.cdate (Date.mk 2025 12 1))
        (Cell.cstr "Active")]) := by
  have h2 : (run_clean_clients "d" WriteOutcome.ok exC8State).2 =
      some [ClientRow.mk (Cell.cstr "Amina") (Cell.cstr "C1") (Cell.cstr "201234567")
        (Cell.cdate (Date.mk 2025 12 1)) (Cell.cstr "Active")] := by decide
  exact (claim_C8_amended_persist_then_return "d" exC8State
    (run_clean_clients "d" WriteOutcome.ok exC8State).1).1
    [ClientRow.mk (Cell.cstr "Amina") (Cell.cstr "C1") (Cell.cstr "201234567")
      (Cell.cdate (Date.mk 2025 12 1)) (Cell.cstr "Active")]
    (Prod.ext_iff.mpr ⟨rfl, h2⟩)
